import Mathlib

/-!
Verification development for the digest-authentication engine of
`auth-digest-axios` (src/src/digest-auth copy 2.ts).  The source file holds two
near-duplicate implementations of the same module; we embed both.  "V1" refers
to the first copy (hardcoded MD5 hash, debug logging of intermediate hashes,
nonce-count ceiling 99); "V2" refers to the second copy (challenge-driven
algorithm selection, ceiling 9999, `algorithm` directive in the header).

External platform primitives (Node's `crypto.createHash`, the WHATWG `URL`
constructor, the network transport, `randomBytes`) are modelled as explicit
function parameters or input values; everything written in the repository
itself is translated directly from the source.
-/

/-! ## Basic helpers modelling JavaScript string primitives -/

/-- JS `\w` character class: ASCII letters, digits and underscore. -/
def wordCharB (c : Char) : Bool := c.isAlphanum || c == '_'

/-- `listStartsWith l p` : `p` is a literal prefix of `l`. -/
def listStartsWith : List Char → List Char → Bool
  | _, [] => true
  | [], _ :: _ => false
  | c :: cs, d :: ds => c == d && listStartsWith cs ds

/-- Substring containment on char lists (JS `String.prototype.includes`). -/
def listContainsSub (l sub : List Char) : Bool :=
  listStartsWith l sub ||
    match l with
    | [] => false
    | _ :: cs => listContainsSub cs sub

/-- JS `s.includes(sub)`. -/
def strIncludes (s sub : String) : Bool := listContainsSub s.toList sub.toList

/-- JS `s.indexOf(sub)` (returning `none` for `-1`). -/
def idxOfSub (l sub : List Char) : Option Nat :=
  if listStartsWith l sub then some 0
  else
    match l with
    | [] => none
    | _ :: cs => (idxOfSub cs sub).map (· + 1)

/-- JS `s.startsWith(p)`. -/
def strStartsWith (s pre : String) : Bool := listStartsWith s.toList pre.toList

/-- JS `s.toLowerCase()` (char-wise; the inputs here are ASCII). -/
def strToLower (s : String) : String := String.mk (s.toList.map Char.toLower)

/-- JS `s.toUpperCase()` (char-wise; the inputs here are ASCII). -/
def strToUpper (s : String) : String := String.mk (s.toList.map Char.toUpper)

/-- JS truthiness of an optional string: `undefined` and `""` are falsy. -/
def jsTruthyS : Option String → Bool
  | none => false
  | some s => s != ""

/-- JS `o || d` for an optional string `o`. -/
def jsOrStr (o : Option String) (d : String) : String :=
  match o with
  | some s => if s == "" then d else s
  | none => d

/-- Normalise an optional string the way JS truthiness sees it:
`some ""` collapses to `none`. -/
def normOpt (o : Option String) : Option String :=
  match o with
  | some s => if s == "" then none else some s
  | none => none

/-- JS `m?.toUpperCase() || d`. -/
def jsUpperOr (m : Option String) (d : String) : String :=
  match m with
  | some s => if strToUpper s == "" then d else strToUpper s
  | none => d

/-! ## Data model -/

/-- The `DigestChallenge` interface of the source: `realm` and `nonce` are
plain strings (initialised to `""` by the parser), the rest optional. -/
structure DigestChallenge where
  realm : String
  nonce : String
  qop : Option String := none
  opaqueVal : Option String := none
  algorithm : Option String := none
deriving DecidableEq, Repr

/-! ## ChallengeParser: `parseDigestChallenge`

The source tokenizes with the JS regex `/(\w+)=(?:"([^"]*)"|([^,]*))/g` in an
`exec` loop.  We model that engine for this concrete pattern: the leftmost
match takes a maximal word run followed by `=`, then either a double-quoted
value (when a closing quote exists) or an unquoted value running to the next
comma (possibly empty); scanning resumes after each match. -/

/-- Maximal `\w+` run at the head of the list, with the remainder. -/
def takeWord : List Char → List Char × List Char
  | [] => ([], [])
  | c :: cs =>
    if wordCharB c then
      let p := takeWord cs
      (c :: p.1, p.2)
    else ([], c :: cs)

/-- Value part after the `=`: the alternation `(?:"([^"]*)"|([^,]*))`.
The quoted branch applies only when a closing quote exists; otherwise the
unquoted branch matches greedily up to the next comma (and may be empty). -/
def matchValue : List Char → String × List Char
  | [] => ("", [])
  | c :: cs =>
    if c == '"' then
      if cs.any (fun d => d == '"') then
        let v := cs.takeWhile (fun d => d != '"')
        (String.mk v, cs.drop (v.length + 1))
      else
        let v := (c :: cs).takeWhile (fun d => d != ',')
        (String.mk v, (c :: cs).drop v.length)
    else
      let v := (c :: cs).takeWhile (fun d => d != ',')
      (String.mk v, (c :: cs).drop v.length)

/-- Leftmost match of `(\w+)=value` in the list, returning the key/value pair
and the remainder after the match. -/
def findMatch : List Char → Option ((String × String) × List Char)
  | [] => none
  | c :: cs =>
    if wordCharB c then
      let p := takeWord (c :: cs)
      match p.2 with
      | '=' :: after =>
        let mv := matchValue after
        some ((String.mk p.1, mv.1), mv.2)
      | _ => findMatch cs
    else findMatch cs

/-- All matches of the regex, in order (the `while exec` loop).  Fuel bounds
the number of matches; every match consumes at least two characters, so the
input length is always sufficient fuel. -/
def scanAux : Nat → List Char → List (String × String)
  | 0, _ => []
  | fuel + 1, cs =>
    match findMatch cs with
    | none => []
    | some (kv, rest) => kv :: scanAux fuel rest

def scanMatches (cs : List Char) : List (String × String) := scanAux cs.length cs

/-- The `switch` on the lowercased key (unknown keys ignored, last wins). -/
def applyDirective (c : DigestChallenge) (kv : String × String) : DigestChallenge :=
  let key := strToLower kv.1
  if key == "realm" then { c with realm := kv.2 }
  else if key == "nonce" then { c with nonce := kv.2 }
  else if key == "qop" then { c with qop := some kv.2 }
  else if key == "opaque" then { c with opaqueVal := some kv.2 }
  else if key == "algorithm" then { c with algorithm := some kv.2 }
  else c

/-- `parseDigestChallenge` (identical in both copies of the source). -/
def parseDigestChallenge (authHeader : String) : DigestChallenge :=
  (scanMatches authHeader.toList).foldl applyDirective { realm := "", nonce := "" }

/-! ## Nonce-count formatting: `formatNonceCount` -/

/-- Hex digit in the lowercase alphabet used by JS `Number.toString(16)`. -/
def hexDigitChar (n : Nat) : Char :=
  if n < 10 then Char.ofNat (48 + n) else Char.ofNat (87 + n)

/-- Digits of `n` in base 16, most significant first, preceding `acc`.
Structural recursion on a fuel argument keeps the definition
kernel-reducible; `fuel = n` is always sufficient. -/
def natToHexAux : Nat → Nat → List Char → List Char
  | 0, n, acc => hexDigitChar (n % 16) :: acc
  | fuel + 1, n, acc =>
    if n < 16 then hexDigitChar n :: acc
    else natToHexAux fuel (n / 16) (hexDigitChar (n % 16) :: acc)

/-- JS `n.toString(16)` for a non-negative integer. -/
def natToHex (n : Nat) : String := String.mk (natToHexAux n n [])

/-- JS `s.padStart(len, "0")` (pads, never truncates). -/
def padStartZeros (len : Nat) (s : String) : String :=
  String.mk (List.replicate (len - s.length) '0' ++ s.toList)

/-- `formatNonceCount` (identical in both copies):
`nc.toString(16).padStart(8, "0")`. -/
def formatNonceCount (nc : Nat) : String := padStartZeros 8 (natToHex nc)

/-! ## DigestResponseCalculator: `calculateDigestResponse` -/

/-- V1, line 62: `const algorithm = "MD5";` — the challenge is ignored. -/
def algorithmV1 (_c : DigestChallenge) : String := "MD5"

/-- V2, line 292: `const algorithm = challenge.algorithm || "MD5";`. -/
def algorithmV2 (c : DigestChallenge) : String := jsOrStr c.algorithm "MD5"

/-- V1 `calculateDigestResponse`.  `hashWith alg data` models
`crypto.createHash(alg).update(data).digest("hex")`; the algorithm name is
lowercased before use exactly as in the source. -/
def calculateDigestResponseV1 (hashWith : String → String → String)
    (username password : String) (c : DigestChallenge) (nc : Nat)
    (cnonce method uri : String) : String :=
  let h := hashWith (strToLower (algorithmV1 c))
  let ha1 := h (username ++ ":" ++ c.realm ++ ":" ++ password)
  let ha2 := h (method ++ ":" ++ uri)
  let ncFormatted := formatNonceCount nc
  let responseBase :=
    if jsTruthyS c.qop then
      ha1 ++ ":" ++ c.nonce ++ ":" ++ ncFormatted ++ ":" ++ cnonce ++ ":" ++
        c.qop.getD "" ++ ":" ++ ha2
    else
      ha1 ++ ":" ++ c.nonce ++ ":" ++ ha2
  h responseBase

/-- V2 `calculateDigestResponse`: identical except for the algorithm choice. -/
def calculateDigestResponseV2 (hashWith : String → String → String)
    (username password : String) (c : DigestChallenge) (nc : Nat)
    (cnonce method uri : String) : String :=
  let h := hashWith (strToLower (algorithmV2 c))
  let ha1 := h (username ++ ":" ++ c.realm ++ ":" ++ password)
  let ha2 := h (method ++ ":" ++ uri)
  let ncFormatted := formatNonceCount nc
  let responseBase :=
    if jsTruthyS c.qop then
      ha1 ++ ":" ++ c.nonce ++ ":" ++ ncFormatted ++ ":" ++ cnonce ++ ":" ++
        c.qop.getD "" ++ ":" ++ ha2
    else
      ha1 ++ ":" ++ c.nonce ++ ":" ++ ha2
  h responseBase

/-- The object logged by V1 (lines 70-82, `console.log("Digest calculation
values:", {...})`), as a key/value list.  Note it includes `ha1` and `ha2`. -/
def calculateDigestResponseV1Log (hashWith : String → String → String)
    (username password : String) (c : DigestChallenge) (nc : Nat)
    (cnonce method uri : String) : List (String × String) :=
  let h := hashWith (strToLower (algorithmV1 c))
  let ha1 := h (username ++ ":" ++ c.realm ++ ":" ++ password)
  let ha2 := h (method ++ ":" ++ uri)
  let ncFormatted := formatNonceCount nc
  [("username", username), ("realm", c.realm), ("method", method), ("uri", uri),
   ("nonce", c.nonce), ("nc", ncFormatted), ("cnonce", cnonce),
   ("qop", jsOrStr c.qop "none"), ("ha1", ha1), ("ha2", ha2)]

/-! ## Request URI derivation

`parseURL input base` models the WHATWG `new URL(input, base)` constructor,
returning `(pathname, search)` on success and `none` when the constructor
throws. -/

/-- JS `url.replace(/^https?:\/\/[^\/]+/i, '')` (V1 fallback, line 157): strip
a case-insensitive scheme-plus-host prefix when it matches. -/
def stripSchemeHost (url : String) : String :=
  let low := (strToLower url).toList
  let n :=
    if listStartsWith low ("https://".toList) then 8
    else if listStartsWith low ("http://".toList) then 7
    else 0
  if n == 0 then url
  else
    let rest := url.toList.drop n
    let host := rest.takeWhile (fun ch => ch != '/')
    if host.isEmpty then url else String.mk (rest.drop host.length)

/-- V1 URI derivation (lines 150-168). -/
def deriveUriV1 (parseURL : String → Option String → Option (String × String))
    (url baseURL : Option String) : String :=
  if (match url with | some u => strStartsWith u "http" | none => false) then
    match parseURL (url.getD "") none with
    | some pq => pq.1 ++ pq.2
    | none => stripSchemeHost (url.getD "")
  else if jsTruthyS baseURL && jsTruthyS url then
    match parseURL (url.getD "") baseURL with
    | some pq => pq.1 ++ pq.2
    | none => url.getD ""
  else url.getD ""

/-- V2 URI derivation (lines 366-377): always try `new URL(urlString, baseURL)`
and keep the raw string on failure. -/
def deriveUriV2 (parseURL : String → Option String → Option (String × String))
    (url baseURL : Option String) : String :=
  let urlString := url.getD ""
  match parseURL urlString baseURL with
  | some pq => pq.1 ++ pq.2
  | none => urlString

/-! ## Authorization header assembly -/

/-- V1 header assembly (lines 187-195): no `algorithm` directive. -/
def authValueV1 (username : String) (c : DigestChallenge)
    (uri response ncValue cnonce : String) : String :=
  let base := "Digest username=\"" ++ username ++ "\", realm=\"" ++ c.realm ++
    "\", nonce=\"" ++ c.nonce ++ "\", uri=\"" ++ uri ++ "\", response=\"" ++
    response ++ "\""
  let b2 :=
    if jsTruthyS c.qop then
      base ++ ", qop=" ++ c.qop.getD "" ++ ", nc=" ++ ncValue ++
        ", cnonce=\"" ++ cnonce ++ "\""
    else base
  if jsTruthyS c.opaqueVal then b2 ++ ", opaque=\"" ++ c.opaqueVal.getD "" ++ "\""
  else b2

/-- V2 header assembly (lines 399-411): adds the `algorithm` directive. -/
def authValueV2 (username : String) (c : DigestChallenge)
    (uri response ncValue cnonce : String) : String :=
  let base := "Digest username=\"" ++ username ++ "\", realm=\"" ++ c.realm ++
    "\", nonce=\"" ++ c.nonce ++ "\", uri=\"" ++ uri ++ "\", response=\"" ++
    response ++ "\""
  let b2 :=
    if jsTruthyS c.qop then
      base ++ ", qop=" ++ c.qop.getD "" ++ ", nc=" ++ ncValue ++
        ", cnonce=\"" ++ cnonce ++ "\""
    else base
  let b3 :=
    if jsTruthyS c.opaqueVal then b2 ++ ", opaque=\"" ++ c.opaqueVal.getD "" ++ "\""
    else b2
  if jsTruthyS c.algorithm then b3 ++ ", algorithm=" ++ c.algorithm.getD ""
  else b3

/-! ## AuthenticatingClient: request interceptor -/

/-- Outcome of the unauthenticated probe (`axios.request` with
`validateStatus: status === 401`): final status plus `WWW-Authenticate`. -/
structure ProbeResult where
  status : Nat
  wwwAuthenticate : Option String
deriving DecidableEq, Repr

/-- Spec failure taxonomy for the errors thrown by the interceptor. -/
inductive AuthError where
  | probeFailed (status : Nat)
  | missingAuthHeader
  | unsupportedScheme (header : String)
  | invalidChallenge (c : DigestChallenge)
  | noChallenge
deriving DecidableEq, Repr

/-- The shared mutable state `cachedChallenge` / `nc` of one client. -/
structure CacheState where
  challenge : Option DigestChallenge
  nc : Nat
deriving DecidableEq, Repr

/-- Result of one challenge-acquisition attempt.  `failedAssigned` records the
source behaviour of assigning `cachedChallenge` *before* validating it (V1
line 136 / V2 line 350), so a failed validation still overwrites the cache. -/
inductive AcqOutcome where
  | failedClean (e : AuthError)
  | failedAssigned (e : AuthError) (c : DigestChallenge)
  | ok (c : DigestChallenge)
deriving DecidableEq, Repr

/-- V1 substring extraction (line 135): take everything after the first
case-insensitive occurrence of `"digest "`.  JS `indexOf` returns `-1` when
absent, so the unreachable not-found case drops `-1 + 7 = 6` characters. -/
def digestPartOf (h : String) : String :=
  match idxOfSub (strToLower h).toList ("digest ".toList) with
  | some i => String.mk (h.toList.drop (i + 7))
  | none => String.mk (h.toList.drop 6)

/-- V1 challenge acquisition (lines 110-141). -/
def acquireV1 (probe : ProbeResult) : AcqOutcome :=
  if probe.status != 401 then .failedClean (.probeFailed probe.status)
  else
    match probe.wwwAuthenticate with
    | none => .failedClean .missingAuthHeader
    | some h =>
      if h == "" then .failedClean .missingAuthHeader
      else if strIncludes (strToLower h) "digest " then
        let c := parseDigestChallenge (digestPartOf h)
        if c.realm == "" || c.nonce == "" then .failedAssigned (.invalidChallenge c) c
        else .ok c
      else .failedClean (.unsupportedScheme h)

/-- V2 challenge acquisition (lines 324-356): identical except the full header
(not the part after `"Digest "`) is handed to the parser. -/
def acquireV2 (probe : ProbeResult) : AcqOutcome :=
  if probe.status != 401 then .failedClean (.probeFailed probe.status)
  else
    match probe.wwwAuthenticate with
    | none => .failedClean .missingAuthHeader
    | some h =>
      if h == "" then .failedClean .missingAuthHeader
      else if strIncludes (strToLower h) "digest " then
        let c := parseDigestChallenge h
        if c.realm == "" || c.nonce == "" then .failedAssigned (.invalidChallenge c) c
        else .ok c
      else .failedClean (.unsupportedScheme h)

/-- Result of one pass through the request interceptor: the cache state after
the call, how many probe requests were issued, and either the attached
`Authorization` header value or the error thrown. -/
structure InterceptorResult where
  state : CacheState
  probes : Nat
  result : Except AuthError String
deriving Repr

/-- Tail of the V1 interceptor once a challenge is at hand (lines 148-204):
derive the URI, format `nc`, compute the response and attach the header. -/
def proceedV1 (hashWith : String → String → String)
    (parseURL : String → Option String → Option (String × String))
    (cnonce username password : String) (method url baseURL : Option String)
    (c : DigestChallenge) (ncNew probes : Nat) : InterceptorResult :=
  let uri := deriveUriV1 parseURL url baseURL
  let ncValue := formatNonceCount ncNew
  let m := jsUpperOr method "GET"
  let response := calculateDigestResponseV1 hashWith username password c ncNew cnonce m uri
  { state := { challenge := some c, nc := ncNew }, probes := probes,
    result := .ok (authValueV1 username c uri response ncValue cnonce) }

/-- Tail of the V2 interceptor (lines 363-422). -/
def proceedV2 (hashWith : String → String → String)
    (parseURL : String → Option String → Option (String × String))
    (cnonce username password : String) (method url baseURL : Option String)
    (c : DigestChallenge) (ncNew probes : Nat) : InterceptorResult :=
  let uri := deriveUriV2 parseURL url baseURL
  let ncValue := formatNonceCount ncNew
  let m := jsUpperOr method "GET"
  let response := calculateDigestResponseV2 hashWith username password c ncNew cnonce m uri
  { state := { challenge := some c, nc := ncNew }, probes := probes,
    result := .ok (authValueV2 username c uri response ncValue cnonce) }

/-- V1 request interceptor (lines 104-209).  `cnonce` stands for the
`crypto.randomBytes(8).toString("hex")` value of this call; the nonce-count
ceiling is the literal `99` of line 107. -/
def requestInterceptorV1 (hashWith : String → String → String)
    (parseURL : String → Option String → Option (String × String))
    (probe : ProbeResult) (cnonce username password : String)
    (method url baseURL : Option String) (s : CacheState) : InterceptorResult :=
  if s.challenge.isNone || decide (s.nc > 99) then
    match acquireV1 probe with
    | .failedClean e => { state := s, probes := 1, result := .error e }
    | .failedAssigned e c =>
      { state := { challenge := some c, nc := s.nc }, probes := 1, result := .error e }
    | .ok c => proceedV1 hashWith parseURL cnonce username password method url baseURL c 1 1
  else
    match s.challenge with
    | none => { state := s, probes := 0, result := .error .noChallenge }
    | some c => proceedV1 hashWith parseURL cnonce username password method url baseURL c (s.nc + 1) 0

/-- V2 request interceptor (lines 318-427); the ceiling is `9999` (line 321). -/
def requestInterceptorV2 (hashWith : String → String → String)
    (parseURL : String → Option String → Option (String × String))
    (probe : ProbeResult) (cnonce username password : String)
    (method url baseURL : Option String) (s : CacheState) : InterceptorResult :=
  if s.challenge.isNone || decide (s.nc > 9999) then
    match acquireV2 probe with
    | .failedClean e => { state := s, probes := 1, result := .error e }
    | .failedAssigned e c =>
      { state := { challenge := some c, nc := s.nc }, probes := 1, result := .error e }
    | .ok c => proceedV2 hashWith parseURL cnonce username password method url baseURL c 1 1
  else
    match s.challenge with
    | none => { state := s, probes := 0, result := .error .noChallenge }
    | some c => proceedV2 hashWith parseURL cnonce username password method url baseURL c (s.nc + 1) 0

/-! ## Response interceptor -/

/-- The rejected value reaching the response-error interceptor: an axios error
that may carry a response with a status code. -/
structure AxiosError where
  responseStatus : Option Nat
deriving DecidableEq, Repr

/-- What the error handler can do: surface the error to the caller
(`Promise.reject(error)`) or resubmit the request.  The resubmission arm
models the commented-out `return axiosInstance(error.config)` and is never
produced by the code. -/
inductive HandlerOutcome where
  | reject (e : AxiosError)
  | retry (e : AxiosError)
deriving DecidableEq, Repr

/-- Response-error interceptor (identical in both copies, lines 212-226 /
430-444): on a 401 with a cached challenge, clear the cache and reset `nc`;
always reject. -/
def responseErrorHandler (e : AxiosError) (s : CacheState) : CacheState × HandlerOutcome :=
  if e.responseStatus == some 401 && s.challenge.isSome then
    ({ challenge := none, nc := 0 }, .reject e)
  else (s, .reject e)

/-! ## Specification-side definitions

These follow the wording of the specification / claims, to be compared with
the definitions above that were translated from the source. -/

/-- The response formula of spec section 4.2, steps 2-5, for a given
single-argument hash function: `HA1 = hash(username:realm:password)`,
`HA2 = hash(method:uri)`, then the 6-term form when a `qop` is given and the
2-term form otherwise. -/
def digestFormulaSpec (hash : String → String) (username password realm nonce : String)
    (qop : Option String) (nc : Nat) (cnonce method uri : String) : String :=
  let ha1 := hash (username ++ ":" ++ realm ++ ":" ++ password)
  let ha2 := hash (method ++ ":" ++ uri)
  match qop with
  | some q =>
    hash (ha1 ++ ":" ++ nonce ++ ":" ++ formatNonceCount nc ++ ":" ++ cnonce ++
      ":" ++ q ++ ":" ++ ha2)
  | none => hash (ha1 ++ ":" ++ nonce ++ ":" ++ ha2)

/-- A double-quoted directive, `key="value"` (spec section 4.4 step 6). -/
def quotedDir (k v : String) : String := k ++ "=\"" ++ v ++ "\""

/-- A bare-token directive, `key=value`. -/
def bareDir (k v : String) : String := k ++ "=" ++ v

/-- Comma-space separated join of directives. -/
def joinDirs : List String → String
  | [] => ""
  | [d] => d
  | d :: e :: ds => d ++ ", " ++ joinDirs (e :: ds)

/-- The `Authorization` value described by the spec / claim C5: directives in
the order username, realm, nonce, uri, response, then the qop group, then
opaque, then algorithm; quoting as stated there. -/
def specAuthHeader (username realm nonce uri response : String)
    (qop : Option String) (ncValue cnonce : String)
    (opq alg : Option String) : String :=
  "Digest " ++ joinDirs
    ([quotedDir "username" username, quotedDir "realm" realm,
      quotedDir "nonce" nonce, quotedDir "uri" uri, quotedDir "response" response] ++
     (match qop with
      | some q => [bareDir "qop" q, bareDir "nc" ncValue, quotedDir "cnonce" cnonce]
      | none => []) ++
     (match opq with | some o => [quotedDir "opaque" o] | none => []) ++
     (match alg with | some a => [bareDir "algorithm" a] | none => []))

/-- The scheme token of a `WWW-Authenticate` header value: everything before
the first space.  The claim's "identify the Digest scheme" reads as this token
being `digest` case-insensitively. -/
def headerSchemeToken (h : String) : String :=
  String.mk (h.toList.takeWhile (fun ch => ch != ' '))

/-- Lowercase hexadecimal alphabet test. -/
def isLowerHexDigit (c : Char) : Bool :=
  (('0' ≤ c) && (c ≤ '9')) || (('a' ≤ c) && (c ≤ 'f'))

/-- Numeric value of a lowercase hex digit. -/
def hexCharVal (c : Char) : Nat :=
  if c.toNat ≥ 97 then c.toNat - 87 else c.toNat - 48

/-- Value denoted by a big-endian string of lowercase hex digits. -/
def hexVal (l : List Char) : Nat := l.foldl (fun a c => a * 16 + hexCharVal c) 0

/-! ## Concrete hash models for witnesses and counterexamples

The source delegates hashing to `crypto.createHash`.  For concrete runs we
instantiate the `hashWith` parameter with injective string taggers; they are
stand-ins for the external primitive, not translations of repository code. -/

/-- `tagHash alg data = alg ++ "[" ++ data ++ "]"`. -/
def tagHash (alg data : String) : String := alg ++ "[" ++ data ++ "]"

/-- Like `tagHash` but degenerate on `md5`, to separate which algorithm a
calculator actually consults. -/
def tagHashMd5Blank (alg data : String) : String :=
  if alg == "md5" then "X" else tagHash alg data

/-! ## Helper lemmas: hexadecimal rendering -/

theorem hexDigitChar_isLower : ∀ m, m < 16 → isLowerHexDigit (hexDigitChar m) = true := by decide

theorem hexCharVal_hexDigitChar : ∀ m, m < 16 → hexCharVal (hexDigitChar m) = m := by decide

theorem natToHexAux_acc (fuel : Nat) : ∀ (n : Nat) (acc : List Char),
    natToHexAux fuel n acc = natToHexAux fuel n [] ++ acc := by
  induction fuel with
  | zero => intro n acc; simp [natToHexAux]
  | succ f ih =>
    intro n acc
    by_cases h : n < 16
    · simp [natToHexAux, h]
    · simp only [natToHexAux, if_neg h]
      rw [ih (n / 16) (hexDigitChar (n % 16) :: acc),
        ih (n / 16) [hexDigitChar (n % 16)]]
      simp

theorem hexVal_snoc (l : List Char) (c : Char) :
    hexVal (l ++ [c]) = hexVal l * 16 + hexCharVal c := by
  simp [hexVal, List.foldl_append]

theorem hexVal_natToHexAux (fuel : Nat) : ∀ n : Nat, n < 16 ^ (fuel + 1) →
    hexVal (natToHexAux fuel n []) = n := by
  induction fuel with
  | zero =>
    intro n hn
    have h16 : n < 16 := by simpa using hn
    simp [natToHexAux, hexVal, Nat.mod_eq_of_lt h16, hexCharVal_hexDigitChar n h16]
  | succ f ih =>
    intro n hn
    by_cases h : n < 16
    · simp [natToHexAux, h, hexVal, hexCharVal_hexDigitChar n h]
    · rw [natToHexAux, if_neg h, natToHexAux_acc, hexVal_snoc,
        ih (n / 16) ?_, hexCharVal_hexDigitChar _ (Nat.mod_lt _ (by omega))]
      · have := Nat.div_add_mod n 16
        omega
      · have : 16 ^ (f + 1 + 1) = 16 ^ (f + 1) * 16 := by ring
        rw [this] at hn
        exact Nat.div_lt_of_lt_mul (by omega)

theorem natToHexAux_length (fuel : Nat) : ∀ (n k : Nat) (acc : List Char),
    1 ≤ k → n < 16 ^ k → (natToHexAux fuel n acc).length ≤ k + acc.length := by
  induction fuel with
  | zero => intro n k acc hk _; simp [natToHexAux]; omega
  | succ f ih =>
    intro n k acc hk hn
    by_cases h : n < 16
    · simp [natToHexAux, h]; omega
    · rw [natToHexAux, if_neg h]
      have hk2 : 2 ≤ k := by
        by_contra hlt
        push_neg at hlt
        have hk1 : k = 1 := by omega
        subst hk1
        simp at hn
        omega
      have hdiv : n / 16 < 16 ^ (k - 1) := by
        have : 16 ^ (k - 1) * 16 = 16 ^ k := by
          rw [← pow_succ]
          congr 1
          omega
        exact Nat.div_lt_of_lt_mul (by omega)
      have := ih (n / 16) (k - 1) (hexDigitChar (n % 16) :: acc) (by omega) hdiv
      simp at this ⊢
      omega

theorem natToHexAux_chars (fuel : Nat) : ∀ (n : Nat) (acc : List Char),
    (∀ c ∈ acc, isLowerHexDigit c = true) →
    ∀ c ∈ natToHexAux fuel n acc, isLowerHexDigit c = true := by
  induction fuel with
  | zero =>
    intro n acc hacc c hc
    rcases List.mem_cons.mp hc with heq | hmem
    · subst heq
      exact hexDigitChar_isLower _ (Nat.mod_lt _ (by omega))
    · exact hacc _ hmem
  | succ f ih =>
    intro n acc hacc c hc
    by_cases h : n < 16
    · rw [natToHexAux, if_pos h] at hc
      rcases List.mem_cons.mp hc with heq | hmem
      · subst heq
        exact hexDigitChar_isLower _ h
      · exact hacc _ hmem
    · rw [natToHexAux, if_neg h] at hc
      refine ih (n / 16) _ ?_ c hc
      intro d hd
      rcases List.mem_cons.mp hd with heq | hmem
      · subst heq
        exact hexDigitChar_isLower _ (Nat.mod_lt _ (by omega))
      · exact hacc _ hmem

theorem hexVal_zeros_append (k : Nat) (l : List Char) :
    hexVal (List.replicate k '0' ++ l) = hexVal l := by
  induction k with
  | zero => rfl
  | succ m ih => simpa [hexVal, List.replicate_succ] using ih

theorem nat_lt_sixteen_pow (n : Nat) : n < 16 ^ (n + 1) := by
  calc n < 2 ^ n := Nat.lt_two_pow n
  _ ≤ 16 ^ n := Nat.pow_le_pow_left (by omega) n
  _ ≤ 16 ^ (n + 1) := Nat.pow_le_pow_right (by omega) (by omega)

/-- `formatNonceCount` renders exactly the value `nc` in lowercase hex. -/
theorem hexVal_formatNonceCount (nc : Nat) :
    hexVal (formatNonceCount nc).toList = nc := by
  have := hexVal_natToHexAux nc nc (nat_lt_sixteen_pow nc)
  simpa [formatNonceCount, padStartZeros, natToHex, hexVal_zeros_append] using this

theorem formatNonceCount_chars (nc : Nat) :
    ∀ c ∈ (formatNonceCount nc).toList, isLowerHexDigit c = true := by
  intro c hc
  simp only [formatNonceCount, padStartZeros, natToHex] at hc
  rcases List.mem_append.mp hc with hrep | hdig
  · have := List.eq_of_mem_replicate hrep
    subst this
    decide
  · exact natToHexAux_chars nc nc [] (by simp) c (by simpa using hdig)

theorem formatNonceCount_length (nc : Nat) (h : nc < 4294967296) :
    (formatNonceCount nc).length = 8 := by
  have hlen : (natToHexAux nc nc []).length ≤ 8 := by
    have : (16 : Nat) ^ 8 = 4294967296 := by norm_num
    exact natToHexAux_length nc nc 8 [] (by omega) (by omega)
  have : (natToHex nc).length = (natToHexAux nc nc []).length := rfl
  simp only [formatNonceCount, padStartZeros]
  show (List.replicate (8 - (natToHex nc).length) '0' ++ (natToHex nc).toList).length = 8
  have htl : (natToHex nc).toList.length = (natToHexAux nc nc []).length := rfl
  simp [htl]
  omega

/-! ## Claim C1 -/

/-- C1 (amended).  For every hash provider and all inputs, both copies of
`calculateDigestResponse` return the spec formula
`hash(HA1:nonce:ncFormatted:cnonce:qop:HA2)` when the challenge has a
*non-empty* `qop` and `hash(HA1:nonce:HA2)` when `qop` is absent or empty
(V1 always hashes with `md5`, V2 with the challenge-selected algorithm);
and `formatNonceCount` renders `nc` in lowercase zero-padded hex:
`1 ↦ "00000001"`, `255 ↦ "000000ff"`, exactly 8 digits for `nc < 2^32`,
all digits lowercase hex, and the string reads back as `nc`. -/
theorem C1_response_formula (hashWith : String → String → String)
    (username password : String) (c : DigestChallenge) (nc : Nat)
    (cnonce method uri : String) :
    calculateDigestResponseV1 hashWith username password c nc cnonce method uri =
      digestFormulaSpec (hashWith "md5") username password c.realm c.nonce
        (normOpt c.qop) nc cnonce method uri ∧
    calculateDigestResponseV2 hashWith username password c nc cnonce method uri =
      digestFormulaSpec (hashWith (strToLower (algorithmV2 c))) username password
        c.realm c.nonce (normOpt c.qop) nc cnonce method uri ∧
    formatNonceCount 1 = "00000001" ∧
    formatNonceCount 255 = "000000ff" ∧
    (nc < 4294967296 → (formatNonceCount nc).length = 8) ∧
    (∀ ch ∈ (formatNonceCount nc).toList, isLowerHexDigit ch = true) ∧
    hexVal (formatNonceCount nc).toList = nc := by
  refine ⟨?_, ?_, by decide, by decide, formatNonceCount_length nc,
    formatNonceCount_chars nc, hexVal_formatNonceCount nc⟩
  · rcases hq : c.qop with _ | q
    · simp [calculateDigestResponseV1, digestFormulaSpec, normOpt, jsTruthyS,
        algorithmV1, hq, show strToLower "MD5" = "md5" from rfl]
    · by_cases hqe : q = ""
      · subst hqe
        simp [calculateDigestResponseV1, digestFormulaSpec, normOpt, jsTruthyS,
          algorithmV1, hq, show strToLower "MD5" = "md5" from rfl]
      · simp [calculateDigestResponseV1, digestFormulaSpec, normOpt, jsTruthyS,
          algorithmV1, hq, hqe, show strToLower "MD5" = "md5" from rfl]
  · rcases hq : c.qop with _ | q
    · simp [calculateDigestResponseV2, digestFormulaSpec, normOpt, jsTruthyS, hq]
    · by_cases hqe : q = ""
      · subst hqe
        simp [calculateDigestResponseV2, digestFormulaSpec, normOpt, jsTruthyS, hq]
      · simp [calculateDigestResponseV2, digestFormulaSpec, normOpt, jsTruthyS, hq, hqe]

/-- C1 witness: the amended formula and the 8-digit rendering at concrete
inputs. -/
theorem C1_response_formula_witness :
    ((1 : Nat) < 4294967296 ∧ (formatNonceCount 1).length = 8) ∧
    calculateDigestResponseV2 tagHash "admin" "secret"
        { realm := "example", nonce := "abc123", qop := some "auth" } 1 "0a4f113b"
        "PUT" "/AccessControl/RemoteControl/door/1" =
      digestFormulaSpec (tagHash "md5") "admin" "secret" "example" "abc123"
        (some "auth") 1 "0a4f113b" "PUT" "/AccessControl/RemoteControl/door/1" := by
  refine ⟨⟨by decide, ?_⟩, ?_⟩
  · exact (C1_response_formula tagHash "admin" "secret"
      { realm := "example", nonce := "abc123", qop := some "auth" } 1 "0a4f113b"
      "PUT" "/AccessControl/RemoteControl/door/1").2.2.2.2.1 (by decide)
  · exact (C1_response_formula tagHash "admin" "secret"
      { realm := "example", nonce := "abc123", qop := some "auth" } 1 "0a4f113b"
      "PUT" "/AccessControl/RemoteControl/door/1").2.1

/-- C1 counterexample to the claim as stated: a challenge *has* a `qop` field
holding the empty string (obtainable from a `qop=""` directive), yet the code
computes the 2-term form, not the claimed 6-term `hash(HA1:nonce:nc:cnonce:
qop:HA2)`. -/
theorem C1_empty_qop_counterexample :
    calculateDigestResponseV2 tagHash "u" "p"
        { realm := "r", nonce := "n", qop := some "" } 1 "cn" "GET" "/a" ≠
      digestFormulaSpec (tagHash "md5") "u" "p" "r" "n" (some "") 1 "cn" "GET" "/a" := by
  decide

/-! ## Claim C2 -/

/-- C2 (amended).  The V2 calculator consults the hash provider only at the
algorithm selected by `challenge.algorithm || "MD5"` (lowercased): two
providers that agree there give identical responses; and the selection is not
hardcoded — a challenge declaring `SHA-256` produces a different response than
one declaring nothing, under a provider separating the two algorithms. -/
theorem C2_algorithm_selection :
    (∀ (hW hW' : String → String → String) (u p : String) (c : DigestChallenge)
        (nc : Nat) (cn m uri : String),
        hW (strToLower (algorithmV2 c)) = hW' (strToLower (algorithmV2 c)) →
        calculateDigestResponseV2 hW u p c nc cn m uri =
          calculateDigestResponseV2 hW' u p c nc cn m uri) ∧
    calculateDigestResponseV2 tagHash "u" "p"
        { realm := "r", nonce := "n", algorithm := some "SHA-256" } 1 "cn" "GET" "/a" ≠
      calculateDigestResponseV2 tagHash "u" "p"
        { realm := "r", nonce := "n" } 1 "cn" "GET" "/a" := by
  constructor
  · intro hW hW' u p c nc cn m uri h
    simp only [calculateDigestResponseV2]
    rw [h]
  · decide

/-- C2 witness: two providers agreeing on `sha-256` (but not on `md5`) give
the same V2 response for a challenge declaring `SHA-256`. -/
theorem C2_algorithm_selection_witness :
    tagHash (strToLower (algorithmV2
        { realm := "r", nonce := "n", algorithm := some "SHA-256" })) =
      tagHashMd5Blank (strToLower (algorithmV2
        { realm := "r", nonce := "n", algorithm := some "SHA-256" })) ∧
    calculateDigestResponseV2 tagHash "u" "p"
        { realm := "r", nonce := "n", algorithm := some "SHA-256" } 1 "cn" "GET" "/a" =
      calculateDigestResponseV2 tagHashMd5Blank "u" "p"
        { realm := "r", nonce := "n", algorithm := some "SHA-256" } 1 "cn" "GET" "/a" := by
  refine ⟨rfl, ?_⟩
  exact C2_algorithm_selection.1 tagHash tagHashMd5Blank "u" "p"
    { realm := "r", nonce := "n", algorithm := some "SHA-256" } 1 "cn" "GET" "/a" rfl

/-- C2 counterexample to the claim as stated: V1 selects `MD5` even though the
challenge's `algorithm` field is present (`SHA-256`), and its output changes
between two hash providers that agree on `sha-256` — so the algorithm used is
not the challenge's field. -/
theorem C2_hardcoded_md5_counterexample :
    algorithmV1 { realm := "r", nonce := "n", algorithm := some "SHA-256" } = "MD5" ∧
    ({ realm := "r", nonce := "n", algorithm := some "SHA-256" } :
        DigestChallenge).algorithm = some "SHA-256" ∧
    tagHash (strToLower "SHA-256") = tagHashMd5Blank (strToLower "SHA-256") ∧
    calculateDigestResponseV1 tagHash "u" "p"
        { realm := "r", nonce := "n", algorithm := some "SHA-256" } 1 "cn" "GET" "/a" ≠
      calculateDigestResponseV1 tagHashMd5Blank "u" "p"
        { realm := "r", nonce := "n", algorithm := some "SHA-256" } 1 "cn" "GET" "/a" := by
  exact ⟨rfl, rfl, rfl, by decide⟩

/-! ## Claim C10 -/

/-- C10.  When the challenge's `algorithm` field is absent, the two duplicate
`calculateDigestResponse` implementations agree for every hash provider and
all inputs. -/
theorem C10_duplicates_agree (hashWith : String → String → String)
    (username password : String) (c : DigestChallenge) (nc : Nat)
    (cnonce method uri : String) (h : c.algorithm = none) :
    calculateDigestResponseV1 hashWith username password c nc cnonce method uri =
      calculateDigestResponseV2 hashWith username password c nc cnonce method uri := by
  simp [calculateDigestResponseV1, calculateDigestResponseV2, algorithmV1,
    algorithmV2, jsOrStr, h]

/-- C10 witness at concrete inputs. -/
theorem C10_duplicates_agree_witness :
    ({ realm := "r", nonce := "n", qop := some "auth" } :
        DigestChallenge).algorithm = none ∧
    calculateDigestResponseV1 tagHash "u" "p"
        { realm := "r", nonce := "n", qop := some "auth" } 1 "cn" "GET" "/a" =
      calculateDigestResponseV2 tagHash "u" "p"
        { realm := "r", nonce := "n", qop := some "auth" } 1 "cn" "GET" "/a" :=
  ⟨rfl, C10_duplicates_agree tagHash "u" "p"
    { realm := "r", nonce := "n", qop := some "auth" } 1 "cn" "GET" "/a" rfl⟩

/-! ## Claim C3 -/

/-- C3.  The cache follows the specified state machine, in both copies
(ceiling 99 for V1, 9999 for V2): from `Empty`, a successful acquisition
yields `Active(_, nc = 1)`; in `Active` under the ceiling the request reuses
the challenge, increments `nc` by exactly 1 and issues no probe; above the
ceiling the next request probes again and, on success, installs the freshly
acquired challenge with `nc = 1` instead of reusing the cached one. -/
theorem C3_cache_state_machine (hashWith : String → String → String)
    (parseURL : String → Option String → Option (String × String))
    (probe : ProbeResult) (cnonce username password : String)
    (method url baseURL : Option String) (s : CacheState)
    (c freshC : DigestChallenge) :
    (s.challenge = none →
      (requestInterceptorV1 hashWith parseURL probe cnonce username password
        method url baseURL s).result.isOk = true →
      (requestInterceptorV1 hashWith parseURL probe cnonce username password
        method url baseURL s).state.nc = 1 ∧
      (requestInterceptorV1 hashWith parseURL probe cnonce username password
        method url baseURL s).state.challenge.isSome = true) ∧
    (s.challenge = some c → s.nc ≤ 99 →
      (requestInterceptorV1 hashWith parseURL probe cnonce username password
        method url baseURL s).state = { challenge := some c, nc := s.nc + 1 } ∧
      (requestInterceptorV1 hashWith parseURL probe cnonce username password
        method url baseURL s).probes = 0 ∧
      (requestInterceptorV1 hashWith parseURL probe cnonce username password
        method url baseURL s).result.isOk = true) ∧
    (s.challenge = some c → s.nc > 99 →
      (requestInterceptorV1 hashWith parseURL probe cnonce username password
        method url baseURL s).probes = 1 ∧
      (acquireV1 probe = .ok freshC →
        (requestInterceptorV1 hashWith parseURL probe cnonce username password
          method url baseURL s).state = { challenge := some freshC, nc := 1 })) ∧
    (s.challenge = none →
      (requestInterceptorV2 hashWith parseURL probe cnonce username password
        method url baseURL s).result.isOk = true →
      (requestInterceptorV2 hashWith parseURL probe cnonce username password
        method url baseURL s).state.nc = 1 ∧
      (requestInterceptorV2 hashWith parseURL probe cnonce username password
        method url baseURL s).state.challenge.isSome = true) ∧
    (s.challenge = some c → s.nc ≤ 9999 →
      (requestInterceptorV2 hashWith parseURL probe cnonce username password
        method url baseURL s).state = { challenge := some c, nc := s.nc + 1 } ∧
      (requestInterceptorV2 hashWith parseURL probe cnonce username password
        method url baseURL s).probes = 0 ∧
      (requestInterceptorV2 hashWith parseURL probe cnonce username password
        method url baseURL s).result.isOk = true) ∧
    (s.challenge = some c → s.nc > 9999 →
      (requestInterceptorV2 hashWith parseURL probe cnonce username password
        method url baseURL s).probes = 1 ∧
      (acquireV2 probe = .ok freshC →
        (requestInterceptorV2 hashWith parseURL probe cnonce username password
          method url baseURL s).state = { challenge := some freshC, nc := 1 })) := by
  refine ⟨?_, ?_, ?_, ?_, ?_, ?_⟩
  · intro h1 h2
    rcases hacq : acquireV1 probe with e | ⟨e, c'⟩ | c' <;>
      simp [requestInterceptorV1, h1, hacq, proceedV1, Except.isOk, Except.toBool] at h2 ⊢
  · intro h1 h2
    have hb : decide (s.nc > 99) = false := decide_eq_false_iff_not.mpr (by omega)
    simp [requestInterceptorV1, h1, hb, proceedV1, Except.isOk, Except.toBool]
  · intro h1 h2
    have hb : decide (s.nc > 99) = true := decide_eq_true h2
    constructor
    · rcases hacq : acquireV1 probe with e | ⟨e, c'⟩ | c' <;>
        simp [requestInterceptorV1, h1, hb, hacq, proceedV1]
    · intro hok
      simp [requestInterceptorV1, h1, hb, hok, proceedV1]
  · intro h1 h2
    rcases hacq : acquireV2 probe with e | ⟨e, c'⟩ | c' <;>
      simp [requestInterceptorV2, h1, hacq, proceedV2, Except.isOk, Except.toBool] at h2 ⊢
  · intro h1 h2
    have hb : decide (s.nc > 9999) = false := decide_eq_false_iff_not.mpr (by omega)
    simp [requestInterceptorV2, h1, hb, proceedV2, Except.isOk, Except.toBool]
  · intro h1 h2
    have hb : decide (s.nc > 9999) = true := decide_eq_true h2
    constructor
    · rcases hacq : acquireV2 probe with e | ⟨e, c'⟩ | c' <;>
        simp [requestInterceptorV2, h1, hb, hacq, proceedV2]
    · intro hok
      simp [requestInterceptorV2, h1, hb, hok, proceedV2]

/-- C3 witness: a V1 reuse step at `nc = 5` and a V1 rollover step at
`nc = 100` on concrete inputs. -/
theorem C3_cache_state_machine_witness :
    ((requestInterceptorV1 tagHash (fun _ _ => none)
        { status := 200, wwwAuthenticate := none } "cn" "u" "p" (some "get")
        (some "/x") none
        { challenge := some { realm := "r", nonce := "n" }, nc := 5 }).state =
      { challenge := some { realm := "r", nonce := "n" }, nc := 6 } ∧
     (requestInterceptorV1 tagHash (fun _ _ => none)
        { status := 200, wwwAuthenticate := none } "cn" "u" "p" (some "get")
        (some "/x") none
        { challenge := some { realm := "r", nonce := "n" }, nc := 5 }).probes = 0 ∧
     (requestInterceptorV1 tagHash (fun _ _ => none)
        { status := 200, wwwAuthenticate := none } "cn" "u" "p" (some "get")
        (some "/x") none
        { challenge := some { realm := "r", nonce := "n" }, nc := 5 }).result.isOk = true) ∧
    (requestInterceptorV1 tagHash (fun _ _ => none)
        { status := 401, wwwAuthenticate := some "Digest realm=\"r2\", nonce=\"n2\"" }
        "cn" "u" "p" (some "get") (some "/x") none
        { challenge := some { realm := "r", nonce := "n" }, nc := 100 }).state =
      { challenge := some { realm := "r2", nonce := "n2" }, nc := 1 } := by
  constructor
  · exact (C3_cache_state_machine tagHash (fun _ _ => none)
      { status := 200, wwwAuthenticate := none } "cn" "u" "p" (some "get")
      (some "/x") none { challenge := some { realm := "r", nonce := "n" }, nc := 5 }
      { realm := "r", nonce := "n" } { realm := "r", nonce := "n" }).2.1 rfl (by decide)
  · exact ((C3_cache_state_machine tagHash (fun _ _ => none)
      { status := 401, wwwAuthenticate := some "Digest realm=\"r2\", nonce=\"n2\"" }
      "cn" "u" "p" (some "get") (some "/x") none
      { challenge := some { realm := "r", nonce := "n" }, nc := 100 }
      { realm := "r", nonce := "n" } { realm := "r2", nonce := "n2" }).2.2.1 rfl
      (by decide)).2 rfl

/-! ## Claim C4 -/

/-- C4.  A 401 response while a challenge is cached clears the cache to
`Empty` with `nc = 0` and rejects the error to the caller (no resubmission);
and from the empty cache, the next interceptor pass issues exactly one probe
and proceeds whenever acquisition succeeds — in both copies. -/
theorem C4_invalidate_on_401 (hashWith : String → String → String)
    (parseURL : String → Option String → Option (String × String))
    (probe : ProbeResult) (cnonce username password : String)
    (method url baseURL : Option String) (e : AxiosError) (s : CacheState)
    (c : DigestChallenge)
    (h401 : e.responseStatus = some 401) (hc : s.challenge = some c) :
    responseErrorHandler e s = ({ challenge := none, nc := 0 }, .reject e) ∧
    ((∃ c', acquireV1 probe = .ok c') →
      (requestInterceptorV1 hashWith parseURL probe cnonce username password
        method url baseURL { challenge := none, nc := 0 }).probes = 1 ∧
      (requestInterceptorV1 hashWith parseURL probe cnonce username password
        method url baseURL { challenge := none, nc := 0 }).result.isOk = true) ∧
    ((∃ c', acquireV2 probe = .ok c') →
      (requestInterceptorV2 hashWith parseURL probe cnonce username password
        method url baseURL { challenge := none, nc := 0 }).probes = 1 ∧
      (requestInterceptorV2 hashWith parseURL probe cnonce username password
        method url baseURL { challenge := none, nc := 0 }).result.isOk = true) := by
  refine ⟨?_, ?_, ?_⟩
  · simp [responseErrorHandler, h401, hc]
  · rintro ⟨c', hc'⟩
    simp [requestInterceptorV1, hc', proceedV1, Except.isOk, Except.toBool]
  · rintro ⟨c', hc'⟩
    simp [requestInterceptorV2, hc', proceedV2, Except.isOk, Except.toBool]

/-- C4 witness: a 401 with a cached challenge clears the cache; the next pass
issues exactly one probe on a concrete valid challenge. -/
theorem C4_invalidate_on_401_witness :
    responseErrorHandler { responseStatus := some 401 }
        { challenge := some { realm := "r", nonce := "n" }, nc := 7 } =
      ({ challenge := none, nc := 0 }, .reject { responseStatus := some 401 }) ∧
    (requestInterceptorV1 tagHash (fun _ _ => none)
        { status := 401, wwwAuthenticate := some "Digest realm=\"r\", nonce=\"n\"" }
        "cn" "u" "p" (some "get") (some "/x") none
        { challenge := none, nc := 0 }).probes = 1 := by
  have h := C4_invalidate_on_401 tagHash (fun _ _ => none)
    { status := 401, wwwAuthenticate := some "Digest realm=\"r\", nonce=\"n\"" }
    "cn" "u" "p" (some "get") (some "/x") none { responseStatus := some 401 }
    { challenge := some { realm := "r", nonce := "n" }, nc := 7 }
    { realm := "r", nonce := "n" } rfl rfl
  exact ⟨h.1, (h.2.1 ⟨{ realm := "r", nonce := "n" }, rfl⟩).1⟩

/-! ## Claim C5 -/

theorem jsTruthyS_eq_isSome (o : Option String) : jsTruthyS o = (normOpt o).isSome := by
  rcases o with _ | s
  · simp [jsTruthyS, normOpt]
  · by_cases h : s = "" <;> simp [jsTruthyS, normOpt, h]

theorem getD_normOpt (o : Option String) : o.getD "" = (normOpt o).getD "" := by
  rcases o with _ | s
  · simp [normOpt]
  · by_cases h : s = "" <;> simp [normOpt, h]

/-- C5 (amended).  Both header builders produce exactly the directive layout
of the claim — username, realm, nonce, uri, response, then qop/nc/cnonce, then
opaque, then algorithm, quoted as stated — but a group is emitted only when
the corresponding challenge field is present *and non-empty* (JS truthiness),
and the V1 builder never emits the `algorithm` directive. -/
theorem C5_header_assembly (username : String) (c : DigestChallenge)
    (uri response ncValue cnonce : String) :
    authValueV1 username c uri response ncValue cnonce =
      specAuthHeader username c.realm c.nonce uri response (normOpt c.qop)
        ncValue cnonce (normOpt c.opaqueVal) none ∧
    authValueV2 username c uri response ncValue cnonce =
      specAuthHeader username c.realm c.nonce uri response (normOpt c.qop)
        ncValue cnonce (normOpt c.opaqueVal) (normOpt c.algorithm) := by
  rcases hqn : normOpt c.qop with _ | q <;>
    rcases hon : normOpt c.opaqueVal with _ | o <;>
      rcases han : normOpt c.algorithm with _ | a <;>
        refine ⟨?_, ?_⟩ <;>
          simp only [authValueV1, authValueV2, jsTruthyS_eq_isSome, getD_normOpt,
            hqn, hon, han, Option.isSome_some, Option.isSome_none,
            Option.getD_some, Option.getD_none, eq_self_iff_true,
            Bool.false_eq_true, if_true, if_false,
            specAuthHeader, joinDirs, quotedDir, bareDir,
            List.cons_append, List.nil_append, List.append_nil,
            show ("Digest username=\"" : String) = "Digest " ++ ("username" ++ "=\"") from rfl,
            show ("\", realm=\"" : String) = "\"" ++ (", " ++ ("realm" ++ "=\"")) from rfl,
            show ("\", nonce=\"" : String) = "\"" ++ (", " ++ ("nonce" ++ "=\"")) from rfl,
            show ("\", uri=\"" : String) = "\"" ++ (", " ++ ("uri" ++ "=\"")) from rfl,
            show ("\", response=\"" : String) = "\"" ++ (", " ++ ("response" ++ "=\"")) from rfl,
            show (", qop=" : String) = ", " ++ ("qop" ++ "=") from rfl,
            show (", nc=" : String) = ", " ++ ("nc" ++ "=") from rfl,
            show (", cnonce=\"" : String) = ", " ++ ("cnonce" ++ "=\"") from rfl,
            show (", opaque=\"" : String) = ", " ++ ("opaque" ++ "=\"") from rfl,
            show (", algorithm=" : String) = ", " ++ ("algorithm" ++ "=") from rfl,
            String.append_assoc]

/-- C5 counterexample to the claim as stated: with `opaque` present but empty
the V2 header omits the `opaque` directive, and with `algorithm` present and
non-empty the V1 header omits the `algorithm` directive. -/
theorem C5_directive_counterexample :
    ({ realm := "r", nonce := "n", qop := some "auth", opaqueVal := some "",
        algorithm := some "MD5" } : DigestChallenge).opaqueVal = some "" ∧
    strIncludes (authValueV2 "u"
        { realm := "r", nonce := "n", qop := some "auth", opaqueVal := some "",
          algorithm := some "MD5" } "/a" "resp" "00000001" "cn") "opaque" = false ∧
    ({ realm := "r", nonce := "n", qop := some "auth", opaqueVal := some "",
        algorithm := some "MD5" } : DigestChallenge).algorithm = some "MD5" ∧
    strIncludes (authValueV1 "u"
        { realm := "r", nonce := "n", qop := some "auth", opaqueVal := some "",
          algorithm := some "MD5" } "/a" "resp" "00000001" "cn") "algorithm" = false := by
  exact ⟨rfl, by decide, rfl, by decide⟩

/-! ## Claim C6 -/

/-- C6 (code bug witnessed).  A 401 probe whose challenge has an empty `realm`
makes acquisition fail with `InvalidChallenge`, *but* the parsed invalid
challenge is still installed in the cache (the source assigns
`cachedChallenge` before validating); the very next interceptor pass reuses
it without probing and happily sends `realm=""`.  Additionally the validation
accepts a whitespace-only realm, which the spec invariant rules out. -/
theorem C6_invalid_challenge_installed :
    (requestInterceptorV1 tagHash (fun _ _ => none)
        { status := 401, wwwAuthenticate := some "Digest realm=\"\", nonce=\"abc\"" }
        "cn" "u" "p" (some "get") (some "/x") none
        { challenge := none, nc := 0 }).result =
      .error (.invalidChallenge { realm := "", nonce := "abc" }) ∧
    (requestInterceptorV1 tagHash (fun _ _ => none)
        { status := 401, wwwAuthenticate := some "Digest realm=\"\", nonce=\"abc\"" }
        "cn" "u" "p" (some "get") (some "/x") none
        { challenge := none, nc := 0 }).state =
      { challenge := some { realm := "", nonce := "abc" }, nc := 0 } ∧
    (requestInterceptorV1 tagHash (fun _ _ => none)
        { status := 200, wwwAuthenticate := none } "cn" "u" "p" (some "get")
        (some "/x") none
        { challenge := some { realm := "", nonce := "abc" }, nc := 0 }).probes = 0 ∧
    (requestInterceptorV1 tagHash (fun _ _ => none)
        { status := 200, wwwAuthenticate := none } "cn" "u" "p" (some "get")
        (some "/x") none
        { challenge := some { realm := "", nonce := "abc" }, nc := 0 }).result =
      .ok "Digest username=\"u\", realm=\"\", nonce=\"abc\", uri=\"/x\", response=\"md5[md5[u::p]:abc:md5[GET:/x]]\"" ∧
    (parseDigestChallenge "realm=\" \", nonce=\"x\"").realm = " " ∧
    acquireV1 { status := 401, wwwAuthenticate := some "Digest realm=\" \", nonce=\"x\"" } =
      .ok { realm := " ", nonce := "x" } := by
  exact ⟨rfl, rfl, rfl, rfl, rfl, rfl⟩

/-! ## Claim C7 -/

/-- C7 (amended).  With an empty cache, in both copies: a probe status other
than 401 fails with the probe-failure error; a 401 without a
`WWW-Authenticate` header — or with an empty one — fails with
`MissingAuthHeader`; and a 401 whose non-empty header does not contain the
substring `"digest "` case-insensitively fails with `UnsupportedScheme`.
(The code's check is substring containment, not a scheme-token test.) -/
theorem C7_probe_failure_taxonomy (hashWith : String → String → String)
    (parseURL : String → Option String → Option (String × String))
    (probe : ProbeResult) (cnonce username password : String)
    (method url baseURL : Option String) (s : CacheState) (hdr : String)
    (hs : s.challenge = none) :
    (probe.status ≠ 401 →
      (requestInterceptorV1 hashWith parseURL probe cnonce username password
        method url baseURL s).result = .error (.probeFailed probe.status) ∧
      (requestInterceptorV2 hashWith parseURL probe cnonce username password
        method url baseURL s).result = .error (.probeFailed probe.status)) ∧
    (probe.status = 401 → probe.wwwAuthenticate = none →
      (requestInterceptorV1 hashWith parseURL probe cnonce username password
        method url baseURL s).result = .error .missingAuthHeader ∧
      (requestInterceptorV2 hashWith parseURL probe cnonce username password
        method url baseURL s).result = .error .missingAuthHeader) ∧
    (probe.status = 401 → probe.wwwAuthenticate = some "" →
      (requestInterceptorV1 hashWith parseURL probe cnonce username password
        method url baseURL s).result = .error .missingAuthHeader ∧
      (requestInterceptorV2 hashWith parseURL probe cnonce username password
        method url baseURL s).result = .error .missingAuthHeader) ∧
    (probe.status = 401 → probe.wwwAuthenticate = some hdr → hdr ≠ "" →
      strIncludes (strToLower hdr) "digest " = false →
      (requestInterceptorV1 hashWith parseURL probe cnonce username password
        method url baseURL s).result = .error (.unsupportedScheme hdr) ∧
      (requestInterceptorV2 hashWith parseURL probe cnonce username password
        method url baseURL s).result = .error (.unsupportedScheme hdr)) := by
  refine ⟨?_, ?_, ?_, ?_⟩
  · intro hne
    constructor <;>
      simp [requestInterceptorV1, requestInterceptorV2, acquireV1, acquireV2, hs, hne]
  · intro h401 hna
    constructor <;>
      simp [requestInterceptorV1, requestInterceptorV2, acquireV1, acquireV2, hs, h401, hna]
  · intro h401 hna
    constructor <;>
      simp [requestInterceptorV1, requestInterceptorV2, acquireV1, acquireV2, hs, h401, hna]
  · intro h401 hna hne hinc
    constructor <;>
      simp [requestInterceptorV1, requestInterceptorV2, acquireV1, acquireV2, hs,
        h401, hna, hne, hinc]

/-- C7 witness: a 200 probe fails with the probe-failure error, a bare 401
probe fails with `MissingAuthHeader`, and a `Basic`-scheme header without the
`"digest "` substring fails with `UnsupportedScheme`. -/
theorem C7_probe_failure_taxonomy_witness :
    (requestInterceptorV1 tagHash (fun _ _ => none)
        { status := 200, wwwAuthenticate := none } "cn" "u" "p" (some "get")
        (some "/x") none { challenge := none, nc := 0 }).result =
      .error (.probeFailed 200) ∧
    (requestInterceptorV1 tagHash (fun _ _ => none)
        { status := 401, wwwAuthenticate := none } "cn" "u" "p" (some "get")
        (some "/x") none { challenge := none, nc := 0 }).result =
      .error .missingAuthHeader ∧
    (requestInterceptorV2 tagHash (fun _ _ => none)
        { status := 401, wwwAuthenticate := some "Basic realm=\"r\"" } "cn" "u"
        "p" (some "get") (some "/x") none { challenge := none, nc := 0 }).result =
      .error (.unsupportedScheme "Basic realm=\"r\"") := by
  refine ⟨?_, ?_, ?_⟩
  · exact ((C7_probe_failure_taxonomy tagHash (fun _ _ => none)
      { status := 200, wwwAuthenticate := none } "cn" "u" "p" (some "get")
      (some "/x") none { challenge := none, nc := 0 } "" rfl).1 (by decide)).1
  · exact (((C7_probe_failure_taxonomy tagHash (fun _ _ => none)
      { status := 401, wwwAuthenticate := none } "cn" "u" "p" (some "get")
      (some "/x") none { challenge := none, nc := 0 } "" rfl).2.1 rfl rfl)).1
  · exact ((C7_probe_failure_taxonomy tagHash (fun _ _ => none)
      { status := 401, wwwAuthenticate := some "Basic realm=\"r\"" } "cn" "u" "p"
      (some "get") (some "/x") none { challenge := none, nc := 0 }
      "Basic realm=\"r\"" rfl).2.2.2 rfl rfl (by decide) (by decide)).2

/-- C7 counterexample to the claim as stated: a header whose scheme token is
`Basic` but which contains `"digest "` inside a parameter value is accepted —
the interceptor succeeds instead of failing with `UnsupportedScheme`. -/
theorem C7_scheme_counterexample :
    headerSchemeToken "Basic foo=\"digest \", realm=\"r\", nonce=\"n\"" = "Basic" ∧
    (requestInterceptorV1 tagHash (fun _ _ => none)
        { status := 401,
          wwwAuthenticate := some "Basic foo=\"digest \", realm=\"r\", nonce=\"n\"" }
        "cn" "u" "p" (some "get") (some "/x") none
        { challenge := none, nc := 0 }).result.isOk = true := by
  exact ⟨rfl, by decide⟩

/-! ## Claim C8 -/

/-- C8 (amended).  V1: an absolute URL beginning with lowercase `http` that
the platform parser accepts yields the parser's path ++ query, and a
non-empty relative URL with a non-empty base URL likewise; V2 yields
path ++ query whenever the parser accepts the URL against the base.  (The
remaining fallbacks pass the raw URL through — see the counterexample.) -/
theorem C8_uri_derivation (parseURL : String → Option String → Option (String × String))
    (url b : String) (base : Option String) (p q : String) :
    (strStartsWith url "http" = true → parseURL url none = some (p, q) →
      deriveUriV1 parseURL (some url) base = p ++ q) ∧
    (strStartsWith url "http" = false → url ≠ "" → b ≠ "" →
      parseURL url (some b) = some (p, q) →
      deriveUriV1 parseURL (some url) (some b) = p ++ q) ∧
    (parseURL url base = some (p, q) →
      deriveUriV2 parseURL (some url) base = p ++ q) := by
  refine ⟨?_, ?_, ?_⟩
  · intro hsw hp
    simp [deriveUriV1, hsw, hp]
  · intro hsw hu hb hp
    simp [deriveUriV1, jsTruthyS, hsw, hu, hb, hp]
  · intro hp
    simp [deriveUriV2, hp]

/-- C8 witness: a lowercase-`http` absolute URL and a base-relative path both
reduce to path ++ query under a concrete parser. -/
theorem C8_uri_derivation_witness :
    deriveUriV1 (fun u _ => if u = "http://h/p?x=1" then some ("/p", "?x=1") else none)
      (some "http://h/p?x=1") none = "/p" ++ "?x=1" ∧
    deriveUriV2 (fun u b => if u = "/d" ∧ b = some "http://h" then some ("/d", "") else none)
      (some "/d") (some "http://h") = "/d" ++ "" := by
  constructor
  · exact (C8_uri_derivation
      (fun u _ => if u = "http://h/p?x=1" then some ("/p", "?x=1") else none)
      "http://h/p?x=1" "" none "/p" "?x=1").1 (by decide) (by simp)
  · exact (C8_uri_derivation
      (fun u b => if u = "/d" ∧ b = some "http://h" then some ("/d", "") else none)
      "/d" "" (some "http://h") "/d" "").2.2 (by simp)

/-- C8 counterexample to the claim as stated: an absolute URL whose scheme is
written `HTTP` (uppercase) with no base URL configured is passed through
whole — the `uri` directive and the hashed URI contain scheme and host. -/
theorem C8_absolute_url_counterexample :
    deriveUriV1 (fun _ _ => none) (some "HTTP://HOST/path") none = "HTTP://HOST/path" ∧
    strIncludes "HTTP://HOST/path" "://" = true ∧
    ("HTTP://HOST/path" : String) ≠ "/path" := by
  exact ⟨rfl, by decide, by decide⟩

/-! ## Claim C9 -/

/-- C9 (code bug witnessed).  The V1 calculator logs its intermediate values:
the logged object contains the secret-derived `ha1` and `ha2` hashes.  (Both
copies additionally log the assembled Authorization header, which embeds the
response hash.) -/
theorem C9_ha1_logged :
    ("ha1", tagHash "md5" "admin:example:secret") ∈
      calculateDigestResponseV1Log tagHash "admin" "secret"
        { realm := "example", nonce := "abc123", qop := some "auth" } 1
        "0a4f113b" "PUT" "/door" ∧
    ("ha2", tagHash "md5" "PUT:/door") ∈
      calculateDigestResponseV1Log tagHash "admin" "secret"
        { realm := "example", nonce := "abc123", qop := some "auth" } 1
        "0a4f113b" "PUT" "/door" := by
  exact ⟨by decide, by decide⟩
